import Mathlib

/-!
Verification of the status-page repository's client-side real-time layer
(`src/frontend/src/utils/websocket.ts`, the cache-update handlers in
`IncidentList.tsx`, `Incidents.tsx`, `ServiceList`) and of the incident /
service status state machine described in the design document.

The frontend TypeScript is embedded shallowly: the mutable counters of the
WebSocket managers become explicit state records, the `onopen` / `onclose` /
`onmessage` callbacks become pure transition functions, and the react-query
cache updaters become pure functions on a `PaginatedResponse` value.

The backend (transition engine, incident lifecycle) is not part of the
source tree; where a property depends on it, the corresponding definition is
modelled from the specification and marked as such in its doc comment.
-/

/-! Module-level constants of `websocket.ts`. -/

/-- Constant RECONNECT_INTERVAL = 5000 from websocket.ts. -/
def RECONNECT_INTERVAL : Nat := 5000

/-- Constant MAX_RECONNECT_ATTEMPTS = 5 from websocket.ts. -/
def MAX_RECONNECT_ATTEMPTS : Nat := 5

namespace WebSocketManager

/-- Mutable reconnection fields of class WebSocketManager:
`reconnectAttempts` (initially 0) and `reconnectTimeout` (initially 1000 ms). -/
structure State where
  reconnectAttempts : Nat
  reconnectTimeout : Nat
deriving DecidableEq, Repr

/-- Initial field values of a freshly constructed (or freshly opened)
WebSocketManager: `reconnectAttempts = 0`, `reconnectTimeout = 1000`. -/
def initState : State := ⟨0, 1000⟩

/-- Field `maxReconnectAttempts = 5` of WebSocketManager. -/
def maxReconnectAttempts : Nat := 5

/-- The base reconnection delay of WebSocketManager (initial value of
`reconnectTimeout`). -/
def baseTimeout : Nat := 1000

/-- Method `handleReconnect` of WebSocketManager: when
`reconnectAttempts < maxReconnectAttempts` it schedules a reconnection after
`reconnectTimeout` milliseconds; the scheduled callback then calls
`connect()`, increments `reconnectAttempts` and doubles `reconnectTimeout`.
The result pairs the scheduled delay (`none` when the ceiling is reached,
i.e. no attempt is scheduled) with the state after the scheduled callback
has run. -/
def handleReconnect (s : State) : Option Nat × State :=
  if s.reconnectAttempts < maxReconnectAttempts then
    (some s.reconnectTimeout, ⟨s.reconnectAttempts + 1, s.reconnectTimeout * 2⟩)
  else
    (none, s)

/-- The `socket.onopen` handler of WebSocketManager.connect: resets
`reconnectAttempts` to 0 and `reconnectTimeout` to 1000. -/
def onOpen (_s : State) : State := ⟨0, 1000⟩

/-- The `socket.onclose` handler of WebSocketManager.connect. The handler
takes no event argument in the source and calls `handleReconnect()`
unconditionally, so the close event's `wasClean` flag (first argument here)
is never consulted. -/
def onClose (_wasClean : Bool) (s : State) : Option Nat × State :=
  handleReconnect s

/-- Delays scheduled by WebSocketManager over `n` consecutive unclean
closes, each close arriving after the previously scheduled callback has
run and its `connect()` call has failed again. -/
def delays : State → Nat → List Nat
  | _, 0 => []
  | s, n + 1 =>
    match handleReconnect s with
    | (some d, s') => d :: delays s' n
    | (none, _) => []

end WebSocketManager

namespace PublicWebSocketManager

/-- Mutable reconnection fields of class PublicWebSocketManager:
`reconnectAttempts` (initially 0) and `reconnectTimeout` (initially 1000 ms). -/
structure State where
  reconnectAttempts : Nat
  reconnectTimeout : Nat
deriving DecidableEq, Repr

/-- Initial field values of PublicWebSocketManager. -/
def initState : State := ⟨0, 1000⟩

/-- Field `maxReconnectAttempts = 5` of PublicWebSocketManager. -/
def maxReconnectAttempts : Nat := 5

/-- The base reconnection delay of PublicWebSocketManager (initial value of
`reconnectTimeout`). -/
def baseTimeout : Nat := 1000

/-- Method `handleReconnect` of PublicWebSocketManager: same schedule as
WebSocketManager.handleReconnect (delay = current `reconnectTimeout`; the
scheduled callback reconnects, increments the counter and doubles the
timeout); additionally clears any previously pending timer, which the
sequential model renders as a no-op. -/
def handleReconnect (s : State) : Option Nat × State :=
  if s.reconnectAttempts < maxReconnectAttempts then
    (some s.reconnectTimeout, ⟨s.reconnectAttempts + 1, s.reconnectTimeout * 2⟩)
  else
    (none, s)

/-- The `ws.onopen` handler of PublicWebSocketManager.connect: resets
`reconnectAttempts` to 0 and `reconnectTimeout` to 1000. -/
def onOpen (_s : State) : State := ⟨0, 1000⟩

/-- The `ws.onclose` handler of PublicWebSocketManager.connect: when
`event.wasClean` it only shows a toast and returns; otherwise it calls
`handleReconnect()`. -/
def onClose (wasClean : Bool) (s : State) : Option Nat × State :=
  if wasClean then (none, s) else handleReconnect s

/-- Delays scheduled by PublicWebSocketManager over `n` consecutive unclean
closes. -/
def delays : State → Nat → List Nat
  | _, 0 => []
  | s, n + 1 =>
    match handleReconnect s with
    | (some d, s') => d :: delays s' n
    | (none, _) => []

end PublicWebSocketManager

namespace useWebSocket

/-- The `useWebSocket` hook keeps a single mutable counter
`reconnectAttempts` (a ref initialised to 0); the reconnection delay is not
stored but recomputed at each close as
`RECONNECT_INTERVAL * 2 ^ reconnectAttempts`. -/
def initAttempts : Nat := 0

/-- The `ws.onopen` handler of useWebSocket.connect: sets
`reconnectAttempts.current = 0`. -/
def onOpen (_attempts : Nat) : Nat := 0

/-- The `ws.onclose` handler of useWebSocket.connect: when `event.wasClean`
it returns without retrying; otherwise, while
`reconnectAttempts < MAX_RECONNECT_ATTEMPTS`, it schedules a reconnect after
`RECONNECT_INTERVAL * 2 ^ reconnectAttempts` ms, and the scheduled callback
increments the counter and reconnects. Result: scheduled delay (`none` if
no attempt is scheduled) and the counter after the callback has run. -/
def onClose (wasClean : Bool) (attempts : Nat) : Option Nat × Nat :=
  if wasClean then (none, attempts)
  else if attempts < MAX_RECONNECT_ATTEMPTS then
    (some (RECONNECT_INTERVAL * 2 ^ attempts), attempts + 1)
  else (none, attempts)

/-- Delays scheduled by the useWebSocket hook over `n` consecutive unclean
closes. -/
def delays : Nat → Nat → List Nat
  | _, 0 => []
  | attempts, n + 1 =>
    match onClose false attempts with
    | (some d, a') => d :: delays a' n
    | (none, _) => []

end useWebSocket

/-! Helper lemmas about the reconnection schedules. -/

theorem wsm_delays_stop (s : WebSocketManager.State)
    (h : ¬ s.reconnectAttempts < WebSocketManager.maxReconnectAttempts) :
    ∀ n, WebSocketManager.delays s n = [] := by
  intro n
  cases n with
  | zero => rfl
  | succ m =>
    simp only [WebSocketManager.delays, WebSocketManager.handleReconnect, if_neg h]

theorem pwsm_delays_stop (s : PublicWebSocketManager.State)
    (h : ¬ s.reconnectAttempts < PublicWebSocketManager.maxReconnectAttempts) :
    ∀ n, PublicWebSocketManager.delays s n = [] := by
  intro n
  cases n with
  | zero => rfl
  | succ m =>
    simp only [PublicWebSocketManager.delays, PublicWebSocketManager.handleReconnect, if_neg h]

theorem uws_delays_stop (a : Nat) (h : ¬ a < MAX_RECONNECT_ATTEMPTS) :
    ∀ n, useWebSocket.delays a n = [] := by
  intro n
  cases n with
  | zero => rfl
  | succ m =>
    simp only [useWebSocket.delays, useWebSocket.onClose, if_neg h, Bool.false_eq_true,
      if_false]

theorem wsm_delays_from_start (n : Nat) (h : 5 ≤ n) :
    WebSocketManager.delays WebSocketManager.initState n
      = [1000, 2000, 4000, 8000, 16000] := by
  obtain ⟨k, rfl⟩ := Nat.exists_eq_add_of_le h
  rw [Nat.add_comm]
  simp only [WebSocketManager.delays, WebSocketManager.initState,
    WebSocketManager.handleReconnect, WebSocketManager.maxReconnectAttempts]
  norm_num
  exact wsm_delays_stop ⟨5, 32000⟩ (by simp [WebSocketManager.maxReconnectAttempts]) k

theorem pwsm_delays_from_start (n : Nat) (h : 5 ≤ n) :
    PublicWebSocketManager.delays PublicWebSocketManager.initState n
      = [1000, 2000, 4000, 8000, 16000] := by
  obtain ⟨k, rfl⟩ := Nat.exists_eq_add_of_le h
  rw [Nat.add_comm]
  simp only [PublicWebSocketManager.delays, PublicWebSocketManager.initState,
    PublicWebSocketManager.handleReconnect, PublicWebSocketManager.maxReconnectAttempts]
  norm_num
  exact pwsm_delays_stop ⟨5, 32000⟩
    (by simp [PublicWebSocketManager.maxReconnectAttempts]) k

theorem uws_delays_from_start (n : Nat) (h : 5 ≤ n) :
    useWebSocket.delays useWebSocket.initAttempts n
      = [5000, 10000, 20000, 40000, 80000] := by
  obtain ⟨k, rfl⟩ := Nat.exists_eq_add_of_le h
  rw [Nat.add_comm]
  simp only [useWebSocket.delays, useWebSocket.initAttempts, useWebSocket.onClose,
    MAX_RECONNECT_ATTEMPTS, RECONNECT_INTERVAL]
  norm_num
  exact uws_delays_stop 5 (by simp [MAX_RECONNECT_ATTEMPTS]) k

/-- Claim C3: for each of the three client connection managers
(WebSocketManager, PublicWebSocketManager, the useWebSocket hook), given at
least 5 consecutive unclean closes starting from a freshly connected state,
exactly 5 reconnection attempts are scheduled, with delays base, 2*base,
4*base, 8*base, 16*base (the delay doubles after each failure), and no 6th
automatic attempt is ever scheduled no matter how many further closes
occur. -/
theorem reconnect_backoff_schedule (n : Nat) (h : 5 ≤ n) :
    WebSocketManager.delays (WebSocketManager.onOpen WebSocketManager.initState) n
        = [WebSocketManager.baseTimeout, 2 * WebSocketManager.baseTimeout,
           4 * WebSocketManager.baseTimeout, 8 * WebSocketManager.baseTimeout,
           16 * WebSocketManager.baseTimeout]
    ∧ PublicWebSocketManager.delays
          (PublicWebSocketManager.onOpen PublicWebSocketManager.initState) n
        = [PublicWebSocketManager.baseTimeout, 2 * PublicWebSocketManager.baseTimeout,
           4 * PublicWebSocketManager.baseTimeout, 8 * PublicWebSocketManager.baseTimeout,
           16 * PublicWebSocketManager.baseTimeout]
    ∧ useWebSocket.delays (useWebSocket.onOpen useWebSocket.initAttempts) n
        = [RECONNECT_INTERVAL, 2 * RECONNECT_INTERVAL, 4 * RECONNECT_INTERVAL,
           8 * RECONNECT_INTERVAL, 16 * RECONNECT_INTERVAL] := by
  refine ⟨?_, ?_, ?_⟩
  · have := wsm_delays_from_start n h
    simpa [WebSocketManager.onOpen, WebSocketManager.initState,
      WebSocketManager.baseTimeout] using this
  · have := pwsm_delays_from_start n h
    simpa [PublicWebSocketManager.onOpen, PublicWebSocketManager.initState,
      PublicWebSocketManager.baseTimeout] using this
  · have := uws_delays_from_start n h
    simpa [useWebSocket.onOpen, useWebSocket.initAttempts, RECONNECT_INTERVAL] using this

/-- Witness for C3: six consecutive unclean closes yield exactly the five
doubling delays in all three managers. -/
theorem reconnect_backoff_schedule_witness :
    (5 ≤ 6)
    ∧ WebSocketManager.delays (WebSocketManager.onOpen WebSocketManager.initState) 6
        = [WebSocketManager.baseTimeout, 2 * WebSocketManager.baseTimeout,
           4 * WebSocketManager.baseTimeout, 8 * WebSocketManager.baseTimeout,
           16 * WebSocketManager.baseTimeout] :=
  ⟨by decide, (reconnect_backoff_schedule 6 (by decide)).1⟩

/-- Claim C4 evaluation: a clean close (wasClean = true) arriving at a
freshly connected WebSocketManager still schedules a reconnection attempt
after the base delay, because its `onclose` handler invokes
`handleReconnect()` unconditionally without reading the close event; the
other two managers return without scheduling anything on a clean close. -/
theorem clean_close_still_schedules_retry_in_ws_manager :
    WebSocketManager.onClose true WebSocketManager.initState
        = (some WebSocketManager.baseTimeout, ⟨1, 2000⟩)
    ∧ PublicWebSocketManager.onClose true PublicWebSocketManager.initState
        = (none, PublicWebSocketManager.initState)
    ∧ useWebSocket.onClose true useWebSocket.initAttempts
        = (none, useWebSocket.initAttempts) := by
  refine ⟨?_, ?_, ?_⟩ <;> rfl

/-- Claim C8: in each of the three client connection managers the socket
open event resets the reconnection attempt counter to 0 and the
reconnection delay to its initial base value (in useWebSocket the delay is
recomputed from the counter, so resetting the counter resets it), and
consequently the next unclean close schedules its retry after the base
delay again. -/
theorem open_resets_backoff (s : WebSocketManager.State)
    (p : PublicWebSocketManager.State) (a : Nat) :
    (WebSocketManager.onOpen s).reconnectAttempts = 0
    ∧ (WebSocketManager.onOpen s).reconnectTimeout = WebSocketManager.baseTimeout
    ∧ (WebSocketManager.onClose false (WebSocketManager.onOpen s)).1
        = some WebSocketManager.baseTimeout
    ∧ (PublicWebSocketManager.onOpen p).reconnectAttempts = 0
    ∧ (PublicWebSocketManager.onOpen p).reconnectTimeout
        = PublicWebSocketManager.baseTimeout
    ∧ (PublicWebSocketManager.onClose false (PublicWebSocketManager.onOpen p)).1
        = some PublicWebSocketManager.baseTimeout
    ∧ useWebSocket.onOpen a = 0
    ∧ (useWebSocket.onClose false (useWebSocket.onOpen a)).1
        = some RECONNECT_INTERVAL := by
  refine ⟨rfl, rfl, rfl, rfl, rfl, rfl, rfl, ?_⟩
  simp [useWebSocket.onClose, useWebSocket.onOpen, MAX_RECONNECT_ATTEMPTS,
    RECONNECT_INTERVAL]

/-! URL construction (websocket.ts). The host is the value of the
VITE_WS_URL environment variable, passed in as a parameter. -/

/-- URL built by WebSocketManager.connect. -/
def WebSocketManager.connectUrl (host orgId token : String) : String :=
  host ++ "/ws/status/org/" ++ orgId ++ "/?token=" ++ token

/-- URL built by the useWebSocket hook for an authenticated connection
(note: no "org/" path segment, unlike WebSocketManager.connect). -/
def useWebSocket.privateUrl (host orgId token : String) : String :=
  host ++ "/ws/status/" ++ orgId ++ "/?token=" ++ token

/-- URL built by the useWebSocket hook for a public connection (note: no
organization slug, unlike PublicWebSocketManager.connect). -/
def useWebSocket.publicUrl (host : String) : String :=
  host ++ "/ws/status/public/"

/-- URL built by PublicWebSocketManager.connect. -/
def PublicWebSocketManager.connectUrl (host orgSlug : String) : String :=
  host ++ "/ws/status/public/" ++ orgSlug ++ "/"

/-- Private address shape stated by the specification:
the URL is host followed by the path /ws/status/org/ followed by an
organization id, a slash, and a token query parameter. This definition
follows the specification's words, for comparison with the URLs the code
builds. -/
def specPrivateUrlShape (host url : String) : Prop :=
  ∃ orgId token : String, url = host ++ "/ws/status/org/" ++ orgId ++ "/?token=" ++ token

/-- Public address shape stated by the specification: the URL is host
followed by /ws/status/public/ followed by a non-empty organization slug
and a trailing slash. This definition follows the specification's words,
for comparison with the URLs the code builds. -/
def specPublicUrlShape (host url : String) : Prop :=
  ∃ orgSlug : String, orgSlug ≠ "" ∧ url = host ++ "/ws/status/public/" ++ orgSlug ++ "/"

/-- Claim C7 counterexample: the private URL constructed by the
useWebSocket hook for host "ws://h", organization id "abc" and token "t"
matches neither of the two address shapes stated by the specification (its
path lacks the "org/" segment). -/
theorem useWebSocket_url_matches_neither_shape :
    ¬ (specPrivateUrlShape "ws://h" (useWebSocket.privateUrl "ws://h" "abc" "t")
       ∨ specPublicUrlShape "ws://h" (useWebSocket.privateUrl "ws://h" "abc" "t")) := by
  have hurl : useWebSocket.privateUrl "ws://h" "abc" "t" = "ws://h/ws/status/abc/?token=t" := rfl
  rw [hurl]
  rintro (⟨oid, tok, heq⟩ | ⟨slug, -, heq⟩)
  · rw [show ("ws://h" : String) ++ "/ws/status/org/" = "ws://h/ws/status/org/" from rfl] at heq
    have hd := congrArg String.data heq
    simp only [String.data_append, List.append_assoc] at hd
    have h17 := congrArg (fun l => l[17]?) hd
    simp only [List.getElem?_append_left
      (show (17 : Nat) < "ws://h/ws/status/org/".data.length by decide)] at h17
    revert h17
    decide
  · rw [show ("ws://h" : String) ++ "/ws/status/public/" = "ws://h/ws/status/public/"
      from rfl] at heq
    have hd := congrArg String.data heq
    simp only [String.data_append, List.append_assoc] at hd
    have h17 := congrArg (fun l => l[17]?) hd
    simp only [List.getElem?_append_left
      (show (17 : Nat) < "ws://h/ws/status/public/".data.length by decide)] at h17
    revert h17
    decide

/-- Claim C7 as amended: every URL constructed by the two connection
manager classes matches one of the two specified address shapes —
WebSocketManager.connect builds the private shape and
PublicWebSocketManager.connect builds the public shape (given a non-empty
organization slug); the useWebSocket hook, however, builds
host/ws/status/orgId/?token=jwt and host/ws/status/public/ with no slug,
which match neither shape. -/
theorem manager_urls_match_spec_shapes (host orgId token orgSlug : String)
    (hslug : orgSlug ≠ "") :
    specPrivateUrlShape host (WebSocketManager.connectUrl host orgId token)
    ∧ specPublicUrlShape host (PublicWebSocketManager.connectUrl host orgSlug) :=
  ⟨⟨orgId, token, rfl⟩, ⟨orgSlug, hslug, rfl⟩⟩

/-- Witness for the amended C7 at concrete host, id, token and slug. -/
theorem manager_urls_match_spec_shapes_witness :
    ("acme" ≠ "")
    ∧ specPrivateUrlShape "ws://h" (WebSocketManager.connectUrl "ws://h" "42" "jwt")
    ∧ specPublicUrlShape "ws://h" (PublicWebSocketManager.connectUrl "ws://h" "acme") :=
  ⟨by decide, manager_urls_match_spec_shapes "ws://h" "42" "jwt" "acme" (by decide)⟩

/-! Incoming message dispatch (the three `onmessage` handlers of
websocket.ts). An incoming frame is either text that JSON.parse rejects
(`malformed`, which the surrounding try/catch turns into a logged no-op) or
a parsed envelope carrying a `type` string and a `data` payload. The
react-query cache a handler mutates is abstracted as a value of an
arbitrary type. -/

/-- Result of JSON.parse on an incoming frame: a parse failure, or an
envelope with a type string and a data payload of type delta. -/
inductive RawMessage (delta : Type) where
  | malformed
  | message (type : String) (data : delta)

/-- The `socket.onmessage` handler of WebSocketManager.connect: on a parse
failure the catch block logs and returns; otherwise the handler registered
under `message.type` (the `handlers` object, modelled as an association
list over type strings) is looked up, and when none is registered nothing
happens. -/
def WebSocketManager.onMessage {alpha delta : Type}
    (handlers : List (String × (delta → alpha → alpha)))
    (raw : RawMessage delta) (cache : alpha) : alpha :=
  match raw with
  | .malformed => cache
  | .message t d =>
    match handlers.find? (fun p => p.1 == t) with
    | none => cache
    | some (_, h) => h d cache

/-- The `ws.onmessage` handler of PublicWebSocketManager.connect: same
handler-object dispatch as WebSocketManager.onMessage (without the toast
side effects). -/
def PublicWebSocketManager.onMessage {alpha delta : Type}
    (handlers : List (String × (delta → alpha → alpha)))
    (raw : RawMessage delta) (cache : alpha) : alpha :=
  match raw with
  | .malformed => cache
  | .message t d =>
    match handlers.find? (fun p => p.1 == t) with
    | none => cache
    | some (_, h) => h d cache

/-- The `ws.onmessage` handler of the useWebSocket hook: a switch on
`message.type` that invalidates the services queries on
service_status_update, the incidents queries on incident_update, and on any
other type only logs a warning; a parse failure is caught and logged. The
two invalidations are passed in as functions on the abstract cache. -/
def useWebSocket.onMessage {alpha delta : Type}
    (invalidateServices invalidateIncidents : alpha → alpha)
    (raw : RawMessage delta) (cache : alpha) : alpha :=
  match raw with
  | .malformed => cache
  | .message t _ =>
    if t == "service_status_update" then invalidateServices cache
    else if t == "incident_update" then invalidateIncidents cache
    else cache

/-- Claim C9: each of the three client onmessage handlers is total and
non-mutating on bad input: a frame that fails JSON parsing leaves the cache
unchanged (the parse error is caught), and a frame whose type has no
registered handler (WebSocketManager, PublicWebSocketManager) or is not one
of the two known types (useWebSocket) leaves the cache unchanged. -/
theorem onmessage_total_and_noop_on_unknown {alpha delta : Type}
    (handlers : List (String × (delta → alpha → alpha)))
    (invS invI : alpha → alpha) (cache : alpha) (t : String) (d : delta) :
    WebSocketManager.onMessage handlers RawMessage.malformed cache = cache
    ∧ PublicWebSocketManager.onMessage handlers RawMessage.malformed cache = cache
    ∧ useWebSocket.onMessage invS invI (RawMessage.malformed : RawMessage delta) cache = cache
    ∧ (handlers.find? (fun p => p.1 == t) = none →
        WebSocketManager.onMessage handlers (RawMessage.message t d) cache = cache)
    ∧ (handlers.find? (fun p => p.1 == t) = none →
        PublicWebSocketManager.onMessage handlers (RawMessage.message t d) cache = cache)
    ∧ (t ≠ "service_status_update" → t ≠ "incident_update" →
        useWebSocket.onMessage invS invI (RawMessage.message t d) cache = cache) := by
  refine ⟨rfl, rfl, rfl, ?_, ?_, ?_⟩
  · intro hnone
    simp [WebSocketManager.onMessage, hnone]
  · intro hnone
    simp [PublicWebSocketManager.onMessage, hnone]
  · intro h1 h2
    simp [useWebSocket.onMessage, h1, h2]

/-- Witness for C9 with an empty handler table, cache 0 and the unknown
type string "initial_stat". -/
theorem onmessage_total_witness :
    (([] : List (String × (Unit → Nat → Nat))).find? (fun p => p.1 == "initial_stat") = none)
    ∧ ("initial_stat" ≠ "service_status_update")
    ∧ WebSocketManager.onMessage ([] : List (String × (Unit → Nat → Nat)))
        (RawMessage.message "initial_stat" ()) 0 = 0
    ∧ useWebSocket.onMessage id id (RawMessage.message "initial_stat" ()) (0 : Nat) = 0 :=
  ⟨rfl, by decide,
    (onmessage_total_and_noop_on_unknown [] id id 0 "initial_stat" ()).2.2.2.1 rfl,
    (onmessage_total_and_noop_on_unknown [] id id 0 "initial_stat" ()).2.2.2.2.2
      (by decide) (by decide)⟩

/-! Frontend data model (src/frontend/src/types — Service, Incident,
PaginatedResponse) and the react-query cache updaters registered for
broadcast events. -/

namespace Frontend

/-- Service status union of types.ts:
'operational' | 'degraded' | 'partial' | 'major' | 'maintenance'
(the constructor partialOutage stands for the source string 'partial'). -/
inductive ServiceStatus where
  | operational
  | degraded
  | partialOutage
  | major
  | maintenance
deriving DecidableEq, Repr

/-- Incident status union of types.ts:
'investigating' | 'identified' | 'monitoring' | 'resolved'. -/
inductive IncidentStatus where
  | investigating
  | identified
  | monitoring
  | resolved
deriving DecidableEq, Repr

/-- Element of Service.valid_next_states in types.ts. -/
structure NextStateOption where
  value : String
  label : String
deriving DecidableEq, Repr

/-- Interface Service of types.ts (active_incidents holds the ids of the
referenced incidents). -/
structure Service where
  id : String
  name : String
  description : String
  status : ServiceStatus
  status_display : String
  is_active : Bool
  active_incidents : Option (List String)
  created_at : String
  updated_at : String
  valid_next_states : List NextStateOption
deriving DecidableEq, Repr

/-- Interface Incident of types.ts. -/
structure Incident where
  id : String
  title : String
  description : String
  status : IncidentStatus
  status_display : String
  started_at : String
  resolved_at : Option String
  service : Service
  service_id : Option String
  from_state : String
  to_state : String
  from_state_display : String
  to_state_display : String
  resulting_state : Option String
  created_at : String
  updated_at : String
deriving DecidableEq, Repr

/-- Interface PaginatedResponse of types.ts. -/
structure PaginatedResponse (T : Type) where
  total : Int
  page : Nat
  rows : Nat
  results : List T
deriving DecidableEq, Repr

/-- Payload of a broadcast event as typed in the handlers:
either a full record (no truthy is_deleted flag) or a deletion payload
carrying is_deleted: true, in which only the id is guaranteed present. -/
inductive UpdateMessage (T : Type) where
  | record (r : T)
  | deleted (id : String)
deriving DecidableEq, Repr

/-- Function handleIncidentUpdate of IncidentList.tsx, as the pure cache
update it applies to one cached page (the updater's undefined-cache branch
returns the cache unchanged and is omitted). A truthy is_deleted filters
the record out and decrements total; otherwise a record whose id is found
(findIndex different from -1) replaces the match, a record not found is
prepended on a page-1 cache (oldData.page === 1) with the last entry
dropped (slice(0, -1)) and total incremented, and any other cache is
returned unchanged. -/
def IncidentList.handleIncidentUpdate (data : UpdateMessage Incident)
    (oldData : PaginatedResponse Incident) : PaginatedResponse Incident :=
  match data with
  | .deleted did =>
    { oldData with
      results := oldData.results.filter (fun incident => incident.id != did)
      total := oldData.total - 1 }
  | .record incidentData =>
    match oldData.results.findIdx? (fun incident => incident.id == incidentData.id) with
    | some _ =>
      { oldData with
        results := oldData.results.map
          (fun incident => if incident.id == incidentData.id then incidentData else incident) }
    | none =>
      if oldData.page == 1 then
        { oldData with
          results := incidentData :: oldData.results.dropLast
          total := oldData.total + 1 }
      else oldData

/-- Handler registered by the Incidents page (Incidents.tsx) for
incident_update events, as the pure update it applies to the cache entry
keyed by the component's current page (setQueryData on the key incidents,
page, rows — so the cached page it updates is the component's page). Same
branches as IncidentList.handleIncidentUpdate except that the prepend
condition is the component state page === 1, passed here as the first
argument. -/
def Incidents.incidentUpdateHandler (page : Nat) (data : UpdateMessage Incident)
    (oldData : PaginatedResponse Incident) : PaginatedResponse Incident :=
  match data with
  | .deleted did =>
    { oldData with
      results := oldData.results.filter (fun incident => incident.id != did)
      total := oldData.total - 1 }
  | .record incidentData =>
    match oldData.results.findIdx? (fun incident => incident.id == incidentData.id) with
    | some _ =>
      { oldData with
        results := oldData.results.map
          (fun incident => if incident.id == incidentData.id then incidentData else incident) }
    | none =>
      if page == 1 then
        { oldData with
          results := incidentData :: oldData.results.dropLast
          total := oldData.total + 1 }
      else oldData

/-- Function handleServiceUpdate of the ServiceList component, as the pure
update setQueriesData applies to each cached page matching the base query
key (so oldData.page need not equal the component's page). Same branches as
the incident handlers, with the prepend condition being the component state
page === 1 (first argument), not the cached page's own number. -/
def ServiceList.handleServiceUpdate (page : Nat) (data : UpdateMessage Service)
    (oldData : PaginatedResponse Service) : PaginatedResponse Service :=
  match data with
  | .deleted did =>
    { oldData with
      results := oldData.results.filter (fun service => service.id != did)
      total := oldData.total - 1 }
  | .record serviceData =>
    match oldData.results.findIdx? (fun service => service.id == serviceData.id) with
    | some _ =>
      { oldData with
        results := oldData.results.map
          (fun service => if service.id == serviceData.id then serviceData else service) }
    | none =>
      if page == 1 then
        { oldData with
          results := serviceData :: oldData.results.dropLast
          total := oldData.total + 1 }
      else oldData

end Frontend

/-- Helper: whether List.findIdx? finds an index is exactly whether some
element satisfies the predicate, independently of the start index. -/
theorem findIdx_isSome_eq_any {alpha : Type} (p : alpha → Bool) :
    ∀ (l : List alpha) (i : Nat), (List.findIdx? p l i).isSome = l.any p := by
  intro l
  induction l with
  | nil => intro i; rfl
  | cons a t ih =>
    intro i
    simp only [List.findIdx?, List.any_cons]
    by_cases h : p a
    · simp [h]
    · simp [h, ih]

theorem findIdx_eq_some_of_mem {alpha : Type} (p : alpha → Bool) (l : List alpha)
    (x : alpha) (hx : x ∈ l) (hp : p x = true) : ∃ k, l.findIdx? p = some k := by
  have h := findIdx_isSome_eq_any p l 0
  rw [List.any_eq_true.mpr ⟨x, hx, hp⟩] at h
  exact Option.isSome_iff_exists.mp h

theorem findIdx_eq_none_of_all {alpha : Type} (p : alpha → Bool) (l : List alpha)
    (hall : ∀ x ∈ l, p x = false) : l.findIdx? p = none := by
  have h := findIdx_isSome_eq_any p l 0
  rw [List.any_eq_false.mpr (fun x hx => by simp [hall x hx])] at h
  exact Option.not_isSome_iff_eq_none.mp (by simp [h])

/-- Claim C6: for the incident cache handlers of IncidentList.tsx and
Incidents.tsx, a broadcast event carrying is_deleted: true makes the
handler remove the record with the matching id from the cached list —
every surviving record was already cached and no record with the deleted
id survives, so the deletion payload is never merged in — while an event
without is_deleted merges the record over an existing entry with the same
id, or inserts it when no entry matches and the page-1 condition holds. -/
theorem deletion_event_removes_never_merges
    (old : Frontend.PaginatedResponse Frontend.Incident) (did : String)
    (inc : Frontend.Incident) (p : Nat) :
    (∀ i ∈ (Frontend.IncidentList.handleIncidentUpdate (.deleted did) old).results,
        i ∈ old.results ∧ i.id ≠ did)
    ∧ (∀ i ∈ old.results, i.id ≠ did →
        i ∈ (Frontend.IncidentList.handleIncidentUpdate (.deleted did) old).results)
    ∧ (∀ i ∈ (Frontend.Incidents.incidentUpdateHandler p (.deleted did) old).results,
        i ∈ old.results ∧ i.id ≠ did)
    ∧ (∀ i ∈ old.results, i.id ≠ did →
        i ∈ (Frontend.Incidents.incidentUpdateHandler p (.deleted did) old).results)
    ∧ ((∃ j ∈ old.results, j.id = inc.id) →
        inc ∈ (Frontend.IncidentList.handleIncidentUpdate (.record inc) old).results
        ∧ inc ∈ (Frontend.Incidents.incidentUpdateHandler p (.record inc) old).results)
    ∧ ((∀ j ∈ old.results, j.id ≠ inc.id) →
        (old.page = 1 →
          inc ∈ (Frontend.IncidentList.handleIncidentUpdate (.record inc) old).results)
        ∧ (p = 1 →
          inc ∈ (Frontend.Incidents.incidentUpdateHandler p (.record inc) old).results)) := by
  refine ⟨?_, ?_, ?_, ?_, ?_, ?_⟩
  · intro i hi
    simp only [Frontend.IncidentList.handleIncidentUpdate, List.mem_filter,
      bne_iff_ne] at hi
    exact hi
  · intro i hi hne
    simp only [Frontend.IncidentList.handleIncidentUpdate, List.mem_filter, bne_iff_ne]
    exact ⟨hi, hne⟩
  · intro i hi
    simp only [Frontend.Incidents.incidentUpdateHandler, List.mem_filter,
      bne_iff_ne] at hi
    exact hi
  · intro i hi hne
    simp only [Frontend.Incidents.incidentUpdateHandler, List.mem_filter, bne_iff_ne]
    exact ⟨hi, hne⟩
  · rintro ⟨j, hj, hjid⟩
    obtain ⟨k, hk⟩ := findIdx_eq_some_of_mem
      (fun incident => incident.id == inc.id) old.results j hj (by simp [hjid])
    constructor
    · simp only [Frontend.IncidentList.handleIncidentUpdate, hk]
      exact List.mem_map.mpr ⟨j, hj, by simp [hjid]⟩
    · simp only [Frontend.Incidents.incidentUpdateHandler, hk]
      exact List.mem_map.mpr ⟨j, hj, by simp [hjid]⟩
  · intro hall
    have hnone := findIdx_eq_none_of_all (fun incident => incident.id == inc.id)
      old.results (fun x hx => by simp [hall x hx])
    constructor
    · intro hp
      simp only [Frontend.IncidentList.handleIncidentUpdate, hnone, hp]
      simp
    · intro hp
      simp only [Frontend.Incidents.incidentUpdateHandler, hnone, hp]
      simp

/-- Sample service record used by concrete witnesses. -/
def sampleService : Frontend.Service :=
  { id := "s1", name := "API", description := "core api", status := .operational,
    status_display := "Operational", is_active := true, active_incidents := none,
    created_at := "2024-01-01", updated_at := "2024-01-01", valid_next_states := [] }

/-- Sample incident record (parameterised by id) used by concrete
witnesses. -/
def sampleIncident (i : String) : Frontend.Incident :=
  { id := i, title := "t", description := "d", status := .investigating,
    status_display := "Investigating", started_at := "2024-01-02", resolved_at := none,
    service := sampleService, service_id := none, from_state := "operational",
    to_state := "degraded", from_state_display := "Operational",
    to_state_display := "Degraded", resulting_state := none,
    created_at := "2024-01-02", updated_at := "2024-01-02" }

/-- Witness for C6: with a page-1 cache holding only an incident with id
"a", an update event for a fresh incident with id "b" is inserted. -/
theorem deletion_event_removes_never_merges_witness :
    (∀ j ∈ (⟨1, 1, 5, [sampleIncident "a"]⟩ :
        Frontend.PaginatedResponse Frontend.Incident).results, j.id ≠ (sampleIncident "b").id)
    ∧ sampleIncident "b" ∈ (Frontend.IncidentList.handleIncidentUpdate
        (.record (sampleIncident "b")) ⟨1, 1, 5, [sampleIncident "a"]⟩).results :=
  ⟨by decide,
    ((deletion_event_removes_never_merges ⟨1, 1, 5, [sampleIncident "a"]⟩ "a"
      (sampleIncident "b") 1).2.2.2.2.2 (by decide)).1 rfl⟩

/-- Cached page number 2 holding one service, used as the C10
counterexample cache. -/
def cachedPage2Services : Frontend.PaginatedResponse Frontend.Service :=
  ⟨10, 2, 5, [sampleService]⟩

/-- Incoming service record with an id not present in the counterexample
cache. -/
def incomingService : Frontend.Service :=
  { sampleService with id := "s2", name := "DB" }

/-- Claim C10 counterexample: the ServiceList updater, which setQueriesData
applies to every cached page, prepends a non-matching record into a cached
page whose own page number is 2 whenever the component's current page is 1
— the claim's requirement that a cached page other than page 1 be returned
unchanged fails. -/
theorem serviceList_prepends_into_other_cached_page :
    cachedPage2Services.page = 2
    ∧ cachedPage2Services.results ≠ []
    ∧ (∀ s ∈ cachedPage2Services.results, s.id ≠ incomingService.id)
    ∧ Frontend.ServiceList.handleServiceUpdate 1 (.record incomingService)
        cachedPage2Services ≠ cachedPage2Services := by
  exact ⟨rfl, by decide, by decide, by decide⟩

/-- Claim C10 as amended: for a non-deletion update event applied to a
non-empty cached page by the handlers of Incidents.tsx and ServiceList -
if a record with the event's id exists, only that record is replaced
(position-wise all other records, the list length, the page and the total
count are unchanged); if no record matches and the handler's prepend
condition holds — the component's current page is 1, which for
Incidents.tsx coincides with the cached page being updated, while
ServiceList applies it to every matching cached page regardless of that
page's own number — the new record is prepended, the last record is
dropped (list length unchanged) and total increases by 1; if no record
matches and the component's current page is not 1, the cache is returned
unchanged. -/
theorem nondeletion_update_frame_effect
    (p : Nat) (inc : Frontend.Incident) (svc : Frontend.Service)
    (oldI : Frontend.PaginatedResponse Frontend.Incident)
    (oldS : Frontend.PaginatedResponse Frontend.Service) :
    ((∃ j ∈ oldI.results, j.id = inc.id) →
      (Frontend.Incidents.incidentUpdateHandler p (.record inc) oldI).total = oldI.total
      ∧ (Frontend.Incidents.incidentUpdateHandler p (.record inc) oldI).page = oldI.page
      ∧ (Frontend.Incidents.incidentUpdateHandler p (.record inc) oldI).results.length
          = oldI.results.length
      ∧ ∀ k : Nat, (Frontend.Incidents.incidentUpdateHandler p (.record inc) oldI).results[k]?
          = (oldI.results[k]?).map (fun i => if i.id == inc.id then inc else i))
    ∧ ((∀ j ∈ oldI.results, j.id ≠ inc.id) → p = 1 → oldI.results ≠ [] →
      (Frontend.Incidents.incidentUpdateHandler p (.record inc) oldI).results
          = inc :: oldI.results.dropLast
      ∧ (Frontend.Incidents.incidentUpdateHandler p (.record inc) oldI).results.length
          = oldI.results.length
      ∧ (Frontend.Incidents.incidentUpdateHandler p (.record inc) oldI).total = oldI.total + 1)
    ∧ ((∀ j ∈ oldI.results, j.id ≠ inc.id) → p ≠ 1 →
      Frontend.Incidents.incidentUpdateHandler p (.record inc) oldI = oldI)
    ∧ ((∃ j ∈ oldS.results, j.id = svc.id) →
      (Frontend.ServiceList.handleServiceUpdate p (.record svc) oldS).total = oldS.total
      ∧ (Frontend.ServiceList.handleServiceUpdate p (.record svc) oldS).page = oldS.page
      ∧ (Frontend.ServiceList.handleServiceUpdate p (.record svc) oldS).results.length
          = oldS.results.length
      ∧ ∀ k : Nat, (Frontend.ServiceList.handleServiceUpdate p (.record svc) oldS).results[k]?
          = (oldS.results[k]?).map (fun s => if s.id == svc.id then svc else s))
    ∧ ((∀ j ∈ oldS.results, j.id ≠ svc.id) → p = 1 → oldS.results ≠ [] →
      (Frontend.ServiceList.handleServiceUpdate p (.record svc) oldS).results
          = svc :: oldS.results.dropLast
      ∧ (Frontend.ServiceList.handleServiceUpdate p (.record svc) oldS).results.length
          = oldS.results.length
      ∧ (Frontend.ServiceList.handleServiceUpdate p (.record svc) oldS).total = oldS.total + 1)
    ∧ ((∀ j ∈ oldS.results, j.id ≠ svc.id) → p ≠ 1 →
      Frontend.ServiceList.handleServiceUpdate p (.record svc) oldS = oldS) := by
  refine ⟨?_, ?_, ?_, ?_, ?_, ?_⟩
  · rintro ⟨j, hj, hjid⟩
    obtain ⟨k, hk⟩ := findIdx_eq_some_of_mem
      (fun incident => incident.id == inc.id) oldI.results j hj (by simp [hjid])
    refine ⟨?_, ?_, ?_, ?_⟩
    · simp [Frontend.Incidents.incidentUpdateHandler, hk]
    · simp [Frontend.Incidents.incidentUpdateHandler, hk]
    · simp [Frontend.Incidents.incidentUpdateHandler, hk]
    · intro k2
      simp [Frontend.Incidents.incidentUpdateHandler, hk, List.getElem?_map]
  · intro hall hp hne
    have hnone := findIdx_eq_none_of_all (fun incident => incident.id == inc.id)
      oldI.results (fun x hx => by simp [hall x hx])
    simp only [Frontend.Incidents.incidentUpdateHandler, hnone, hp]
    refine ⟨by simp, ?_, by simp⟩
    have hpos := List.length_pos.mpr hne
    simp [List.length_dropLast]
    omega
  · intro hall hp
    have hnone := findIdx_eq_none_of_all (fun incident => incident.id == inc.id)
      oldI.results (fun x hx => by simp [hall x hx])
    have hcond : (p == 1) = false := beq_eq_false_iff_ne.mpr hp
    simp [Frontend.Incidents.incidentUpdateHandler, hnone, hcond]
  · rintro ⟨j, hj, hjid⟩
    obtain ⟨k, hk⟩ := findIdx_eq_some_of_mem
      (fun service => service.id == svc.id) oldS.results j hj (by simp [hjid])
    refine ⟨?_, ?_, ?_, ?_⟩
    · simp [Frontend.ServiceList.handleServiceUpdate, hk]
    · simp [Frontend.ServiceList.handleServiceUpdate, hk]
    · simp [Frontend.ServiceList.handleServiceUpdate, hk]
    · intro k2
      simp [Frontend.ServiceList.handleServiceUpdate, hk, List.getElem?_map]
  · intro hall hp hne
    have hnone := findIdx_eq_none_of_all (fun service => service.id == svc.id)
      oldS.results (fun x hx => by simp [hall x hx])
    simp only [Frontend.ServiceList.handleServiceUpdate, hnone, hp]
    refine ⟨by simp, ?_, by simp⟩
    have hpos := List.length_pos.mpr hne
    simp [List.length_dropLast]
    omega
  · intro hall hp
    have hnone := findIdx_eq_none_of_all (fun service => service.id == svc.id)
      oldS.results (fun x hx => by simp [hall x hx])
    have hcond : (p == 1) = false := beq_eq_false_iff_ne.mpr hp
    simp [Frontend.ServiceList.handleServiceUpdate, hnone, hcond]

/-- Cached incidents page (page number 2) used by the C10 witness. -/
def cachedIncidentsPage : Frontend.PaginatedResponse Frontend.Incident :=
  ⟨3, 2, 5, [sampleIncident "a"]⟩

/-- Edited version of the cached incident, used by the C10 witness. -/
def editedIncident : Frontend.Incident :=
  { sampleIncident "a" with title := "updated" }

/-- Witness for the amended C10: replacing the matching record on a cached
page leaves total and length unchanged and rewrites position 0 to the
incoming record. -/
theorem nondeletion_update_frame_effect_witness :
    (∃ j ∈ cachedIncidentsPage.results, j.id = editedIncident.id)
    ∧ (Frontend.Incidents.incidentUpdateHandler 2 (.record editedIncident)
        cachedIncidentsPage).total = cachedIncidentsPage.total
    ∧ (Frontend.Incidents.incidentUpdateHandler 2 (.record editedIncident)
        cachedIncidentsPage).results[0]?
      = (cachedIncidentsPage.results[0]?).map
          (fun i => if i.id == editedIncident.id then editedIncident else i) :=
  ⟨by decide,
    ((nondeletion_update_frame_effect 2 editedIncident sampleService
      cachedIncidentsPage cachedPage2Services).1 (by decide)).1,
    (((nondeletion_update_frame_effect 2 editedIncident sampleService
      cachedIncidentsPage cachedPage2Services).1 (by decide)).2.2.2) 0⟩

/-! Backend status/incident state machine. The Django backend implementing
the StatusTransitionEngine and IncidentLifecycle components is not part of
the source tree (only its frontend callers are), so the definitions in this
namespace are modelled from the specification, as their doc comments
state. -/

namespace Model

/-- Modelled from the spec: the five service states of the data model
(Operational, Degraded, PartialOutage, MajorOutage, Maintenance). -/
inductive ServiceState where
  | operational
  | degraded
  | partialOutage
  | majorOutage
  | maintenance
deriving DecidableEq, Repr

/-- Modelled from the spec: the four incident lifecycle states
(Investigating, Identified, Monitoring, Resolved). -/
inductive IncidentStatus where
  | investigating
  | identified
  | monitoring
  | resolved
deriving DecidableEq, Repr

/-- Modelled from the spec: position in the strictly forward four-state
incident ordering. -/
def IncidentStatus.rank : IncidentStatus → Nat
  | .investigating => 0
  | .identified => 1
  | .monitoring => 2
  | .resolved => 3

/-- Modelled from the spec: the StatusTransitionEngine policy for
incident-driven changes — Operational to Degraded, PartialOutage or
MajorOutage; Degraded to PartialOutage or MajorOutage; PartialOutage to
MajorOutage; MajorOutage to nothing; Maintenance to nothing. -/
def validNextStates : ServiceState → List ServiceState
  | .operational => [.degraded, .partialOutage, .majorOutage]
  | .degraded => [.partialOutage, .majorOutage]
  | .partialOutage => [.majorOutage]
  | .majorOutage => []
  | .maintenance => []

/-- Modelled from the spec: whether a proposed incident-driven state is
reachable from the current service state under the policy. -/
def reachable (cur proposed : ServiceState) : Bool :=
  (validNextStates cur).contains proposed

/-- Modelled from the spec: the Service entity (status plus identity and
display metadata; the owning organization is outside the per-organization
worlds modelled here). -/
structure Service where
  id : String
  name : String
  description : String
  status : ServiceState
  is_active : Bool
deriving DecidableEq, Repr

/-- Modelled from the spec: the Incident entity with its immutable
from_state / to_state snapshot, started_at / resolved_at timestamps and
soft-delete audit fields. -/
structure Incident where
  id : String
  serviceId : String
  title : String
  description : String
  status : IncidentStatus
  from_state : ServiceState
  to_state : ServiceState
  started_at : Nat
  resolved_at : Option Nat
  is_deleted : Bool
  deleted_by : Option String
  deleted_at : Option Nat
deriving DecidableEq, Repr

/-- Modelled from the spec: an active incident is one that is neither
Resolved nor soft-deleted. -/
def Incident.isActive (i : Incident) : Bool :=
  i.status != .resolved && !i.is_deleted

/-- Modelled from the spec: one organization's services and incidents. -/
structure World where
  services : List Service
  incidents : List Incident
deriving DecidableEq, Repr

/-- Modelled from the spec: the most recently started incident of a list
(used by the recompute rule); on equal start times the earlier listed one
is kept. -/
def latestStarted : List Incident → Option Incident
  | [] => none
  | i :: rest =>
    match latestStarted rest with
    | none => some i
    | some j => if i.started_at ≥ j.started_at then some i else some j

/-- Modelled from the spec: the active incidents bound to a service. -/
def activeForService (incidents : List Incident) (sid : String) : List Incident :=
  incidents.filter (fun i => i.serviceId == sid && i.isActive)

/-- Modelled from the spec: StatusTransitionEngine.recompute — the
to_state of the most recently started remaining active incident, or
Operational when none remains. -/
def recompute (remaining : List Incident) : ServiceState :=
  match latestStarted remaining with
  | none => .operational
  | some i => i.to_state

/-- Modelled from the spec: write the given status into the service with
the given id. -/
def setServiceStatus (services : List Service) (sid : String) (st : ServiceState) :
    List Service :=
  services.map (fun s => if s.id == sid then { s with status := st } else s)

/-- Status of the service with the given id, if present. -/
def getServiceStatus (w : World) (sid : String) : Option ServiceState :=
  (w.services.find? (fun s => s.id == sid)).map (fun s => s.status)

/-- Modelled from the spec: the error taxonomy entries raised by the
lifecycle operations embedded here. -/
inductive LifecycleError where
  | invalidTransition
  | invalidProgression
  | notFound
deriving DecidableEq, Repr

/-- Modelled from the spec: the two broadcast event types. -/
inductive EventType where
  | service_status_update
  | incident_update
deriving DecidableEq, Repr

/-- Outcome of an incident creation: the success/error result together
with the (possibly unchanged) world and the emitted events. -/
structure CreateResult where
  result : Except LifecycleError Unit
  world : World
  events : List EventType
deriving Repr

/-- Modelled from the spec: IncidentLifecycle.Create — requires a target
service and a to_state reachable from the service's current status;
snapshots from_state = current status, applies the transition to the
service, sets incident status to Investigating and emits incident_update
and service_status_update; otherwise it fails with InvalidTransition and
neither mutates the world nor emits an event. -/
def createIncident (w : World) (sid : String) (proposed : ServiceState)
    (incId title desc : String) (started_at : Nat) : CreateResult :=
  match w.services.find? (fun s => s.id == sid) with
  | none => ⟨.error .notFound, w, []⟩
  | some s =>
    if reachable s.status proposed then
      { result := .ok ()
        world :=
          { services := setServiceStatus w.services sid proposed
            incidents :=
              { id := incId, serviceId := sid, title := title, description := desc,
                status := .investigating, from_state := s.status, to_state := proposed,
                started_at := started_at, resolved_at := none, is_deleted := false,
                deleted_by := none, deleted_at := none } :: w.incidents }
        events := [.incident_update, .service_status_update] }
    else ⟨.error .invalidTransition, w, []⟩

/-- Modelled from the spec: IncidentLifecycle.Resolve — sets resolved_at,
recomputes over the remaining active incidents of the same service and
applies the resulting status to the service. -/
def resolveIncident (w : World) (incId : String) (t : Nat) : World :=
  match w.incidents.find? (fun i => i.id == incId) with
  | none => w
  | some inc =>
    let incidents := w.incidents.map (fun i =>
      if i.id == incId then { i with status := .resolved, resolved_at := some t } else i)
    { services := setServiceStatus w.services inc.serviceId
        (recompute (activeForService incidents inc.serviceId))
      incidents := incidents }

/-- Modelled from the spec: IncidentLifecycle soft-delete — marks
is_deleted with actor and timestamp, and when the deleted incident was
active runs the same recompute-and-apply path as resolution. -/
def softDeleteIncident (w : World) (incId actor : String) (t : Nat) : World :=
  match w.incidents.find? (fun i => i.id == incId) with
  | none => w
  | some inc =>
    let incidents := w.incidents.map (fun i =>
      if i.id == incId then
        { i with is_deleted := true, deleted_by := some actor, deleted_at := some t }
      else i)
    if inc.isActive then
      { services := setServiceStatus w.services inc.serviceId
          (recompute (activeForService incidents inc.serviceId))
        incidents := incidents }
    else
      { services := w.services, incidents := incidents }

/-- Modelled from the spec: IncidentLifecycle status update — only
strictly forward moves in the four-state ordering are allowed while the
incident is not yet Resolved; anything else fails with
InvalidProgression. -/
def updateIncidentStatus (w : World) (incId : String) (newStatus : IncidentStatus) :
    Except LifecycleError World :=
  match w.incidents.find? (fun i => i.id == incId) with
  | none => .error .notFound
  | some inc =>
    if inc.status = .resolved then .error .invalidProgression
    else if newStatus.rank ≤ inc.status.rank then .error .invalidProgression
    else .ok
      { services := w.services
        incidents := w.incidents.map (fun i =>
          if i.id == incId then { i with status := newStatus } else i) }

/-- Edit-mode submission payload of IncidentModal.handleSubmit: title,
description, status, plus service_id and to_state — the latter set to the
service's current live status. -/
structure EditPayload where
  title : String
  description : String
  status : IncidentStatus
  service_id : String
  to_state : ServiceState
deriving DecidableEq, Repr

/-- Modelled from the spec: the backend incident update endpoint receiving
an edit submission. Per the data-model invariant, from_state and to_state
do not change once created, so the payload's to_state (which IncidentModal
fills with the service's live status) is not applied to the stored
snapshot; title, description and status are updated. -/
def editIncident (w : World) (incId : String) (p : EditPayload) : World :=
  { services := w.services
    incidents := w.incidents.map (fun i =>
      if i.id == incId then
        { i with title := p.title, description := p.description, status := p.status }
      else i) }

/-- The from_state / to_state snapshot of the incident with the given id,
if present. -/
def incidentSnapshot (w : World) (iid : String) : Option (ServiceState × ServiceState) :=
  (w.incidents.find? (fun i => i.id == iid)).map (fun i => (i.from_state, i.to_state))

end Model

/-! Lemmas about the modelled lifecycle. -/

theorem latestStarted_eq_none (l : List Model.Incident) :
    Model.latestStarted l = none ↔ l = [] := by
  cases l with
  | nil => simp [Model.latestStarted]
  | cons i rest =>
    simp only [Model.latestStarted]
    cases Model.latestStarted rest with
    | none => simp
    | some j =>
      by_cases h : i.started_at ≥ j.started_at <;> simp [h]

theorem latestStarted_spec (l : List Model.Incident) (j : Model.Incident)
    (hj : Model.latestStarted l = some j) :
    j ∈ l ∧ ∀ k ∈ l, k.started_at ≤ j.started_at := by
  induction l generalizing j with
  | nil => simp [Model.latestStarted] at hj
  | cons i rest ih =>
    simp only [Model.latestStarted] at hj
    split at hj
    · rename_i hrest
      have hnil : rest = [] := (latestStarted_eq_none rest).mp hrest
      subst hnil
      cases hj
      simp
    · rename_i j' hrest
      obtain ⟨hmem, hmax⟩ := ih j' hrest
      by_cases hge : i.started_at ≥ j'.started_at
      · rw [if_pos hge] at hj
        cases hj
        refine ⟨List.mem_cons_self _ _, ?_⟩
        intro k hk
        rcases List.mem_cons.mp hk with hk | hk
        · subst hk; exact Nat.le_refl _
        · exact Nat.le_trans (hmax k hk) hge
      · rw [if_neg hge] at hj
        cases hj
        refine ⟨List.mem_cons_of_mem _ hmem, ?_⟩
        intro k hk
        rcases List.mem_cons.mp hk with hk | hk
        · subst hk; exact Nat.le_of_not_le hge
        · exact hmax k hk

theorem find?_setServiceStatus (l : List Model.Service) (sid : String)
    (st : Model.ServiceState) :
    (Model.setServiceStatus l sid st).find? (fun s => s.id == sid)
      = (l.find? (fun s => s.id == sid)).map (fun s => { s with status := st }) := by
  induction l with
  | nil => rfl
  | cons a rest ih =>
    simp only [Model.setServiceStatus, List.map_cons]
    by_cases h : a.id == sid
    · rw [if_pos h]
      simp only [List.find?, h]
      rfl
    · rw [if_neg h]
      have hf : (a.id == sid) = false := by simpa using h
      simp only [List.find?, hf]
      simpa [Model.setServiceStatus] using ih

theorem getServiceStatus_set (services : List Model.Service)
    (incidents : List Model.Incident) (sid : String) (st : Model.ServiceState)
    (h : (services.find? (fun s => s.id == sid)).isSome = true) :
    Model.getServiceStatus ⟨Model.setServiceStatus services sid st, incidents⟩ sid
      = some st := by
  obtain ⟨s0, hs0⟩ := Option.isSome_iff_exists.mp h
  simp [Model.getServiceStatus, find?_setServiceStatus, hs0]

theorem snapshot_map_preserved (l : List Model.Incident)
    (f : Model.Incident → Model.Incident)
    (hid : ∀ i, (f i).id = i.id)
    (hfrom : ∀ i, (f i).from_state = i.from_state)
    (hto : ∀ i, (f i).to_state = i.to_state) (iid : String) :
    ((l.map f).find? (fun i => i.id == iid)).map (fun i => (i.from_state, i.to_state))
      = (l.find? (fun i => i.id == iid)).map (fun i => (i.from_state, i.to_state)) := by
  induction l with
  | nil => rfl
  | cons a rest ih =>
    simp only [List.map_cons]
    by_cases h : a.id == iid
    · have hfa : ((f a).id == iid) = true := by
        rw [hid a]; exact h
      simp only [List.find?, h, hfa, Option.map_some]
      simp [hfrom a, hto a]
    · have hf : (a.id == iid) = false := by simpa using h
      have hfa : ((f a).id == iid) = false := by
        rw [hid a]; exact hf
      simp only [List.find?, hf, hfa]
      exact ih

theorem recompute_world_spec (services : List Model.Service)
    (incidents : List Model.Incident) (sid : String)
    (hsvc : (services.find? (fun s => s.id == sid)).isSome = true) :
    (Model.activeForService incidents sid = [] →
      Model.getServiceStatus
        ⟨Model.setServiceStatus services sid
          (Model.recompute (Model.activeForService incidents sid)), incidents⟩ sid
        = some Model.ServiceState.operational)
    ∧ (∀ j, Model.latestStarted (Model.activeForService incidents sid) = some j →
      Model.getServiceStatus
        ⟨Model.setServiceStatus services sid
          (Model.recompute (Model.activeForService incidents sid)), incidents⟩ sid
        = some j.to_state
      ∧ j ∈ Model.activeForService incidents sid
      ∧ ∀ k ∈ Model.activeForService incidents sid, k.started_at ≤ j.started_at) := by
  have hg := getServiceStatus_set services incidents sid
    (Model.recompute (Model.activeForService incidents sid)) hsvc
  constructor
  · intro hrem
    rw [hg, hrem]
    simp [Model.recompute, Model.latestStarted]
  · intro j hj
    refine ⟨?_, (latestStarted_spec _ j hj).1, (latestStarted_spec _ j hj).2⟩
    rw [hg]
    simp [Model.recompute, hj]

/-- Claim C1: when an incident that is currently active is resolved or
soft-deleted, the bound service's status is recomputed — if active
incidents remain bound to the service, the status becomes the to_state of
a remaining active incident whose started_at is maximal (the most recently
started one), and if none remains the status becomes Operational. -/
theorem resolve_or_delete_recomputes_status
    (w : Model.World) (incId : String) (inc : Model.Incident) (t : Nat) (actor : String)
    (hfind : w.incidents.find? (fun i => i.id == incId) = some inc)
    (hactive : inc.isActive = true)
    (hsvc : (w.services.find? (fun s => s.id == inc.serviceId)).isSome = true) :
    ∀ w' ∈ [Model.resolveIncident w incId t, Model.softDeleteIncident w incId actor t],
      (Model.activeForService w'.incidents inc.serviceId = [] →
        Model.getServiceStatus w' inc.serviceId = some Model.ServiceState.operational)
      ∧ (∀ j, Model.latestStarted (Model.activeForService w'.incidents inc.serviceId)
            = some j →
          Model.getServiceStatus w' inc.serviceId = some j.to_state
          ∧ j ∈ Model.activeForService w'.incidents inc.serviceId
          ∧ ∀ k ∈ Model.activeForService w'.incidents inc.serviceId,
              k.started_at ≤ j.started_at) := by
  intro w' hw'
  simp only [List.mem_cons, List.not_mem_nil, or_false] at hw'
  rcases hw' with rfl | rfl
  · simp only [Model.resolveIncident, hfind]
    exact recompute_world_spec w.services _ inc.serviceId hsvc
  · simp only [Model.softDeleteIncident, hfind, hactive]
    exact recompute_world_spec w.services _ inc.serviceId hsvc

/-- Service used by the concrete lifecycle scenario: currently in
MajorOutage because of the second of its two active incidents. -/
def exService : Model.Service :=
  ⟨"s1", "API", "core api", Model.ServiceState.majorOutage, true⟩

/-- First active incident of the scenario: to_state Degraded, started
first (started_at = 1). -/
def exIncident1 : Model.Incident :=
  ⟨"i1", "s1", "degraded perf", "", Model.IncidentStatus.investigating,
    Model.ServiceState.operational, Model.ServiceState.degraded, 1, none, false,
    none, none⟩

/-- Second active incident of the scenario: to_state MajorOutage, started
second (started_at = 2). -/
def exIncident2 : Model.Incident :=
  ⟨"i2", "s1", "full outage", "", Model.IncidentStatus.investigating,
    Model.ServiceState.degraded, Model.ServiceState.majorOutage, 2, none, false,
    none, none⟩

/-- World of the concrete scenario: one service, two active incidents. -/
def exWorld : Model.World := ⟨[exService], [exIncident1, exIncident2]⟩

/-- Witness for C1: with two active incidents (to_state Degraded started
first, to_state MajorOutage started second), resolving the MajorOutage
incident sets the service status to Degraded, not Operational. -/
theorem resolve_or_delete_recomputes_status_witness :
    exWorld.incidents.find? (fun i => i.id == "i2") = some exIncident2
    ∧ exIncident2.isActive = true
    ∧ Model.getServiceStatus (Model.resolveIncident exWorld "i2" 10) "s1"
        = some Model.ServiceState.degraded :=
  ⟨rfl, rfl,
    ((resolve_or_delete_recomputes_status exWorld "i2" exIncident2 10 "admin"
        rfl rfl rfl (Model.resolveIncident exWorld "i2" 10)
        (List.mem_cons_self _ _)).2 exIncident1 rfl).1⟩

/-- Claim C2: for every incident creation against an existing service, if
the proposed to_state is not reachable from the service's current status
under the transition policy, the creation fails with InvalidTransition and
neither the world nor the event list changes; otherwise it succeeds, the
service takes the proposed to_state, and the incident_update and
service_status_update events are emitted. -/
theorem create_rejects_unreachable_transitions
    (w : Model.World) (sid : String) (proposed : Model.ServiceState)
    (incId title desc : String) (t : Nat) (s : Model.Service)
    (hfind : w.services.find? (fun x => x.id == sid) = some s) :
    (Model.reachable s.status proposed = false →
      (Model.createIncident w sid proposed incId title desc t).result
          = Except.error Model.LifecycleError.invalidTransition
      ∧ (Model.createIncident w sid proposed incId title desc t).world = w
      ∧ (Model.createIncident w sid proposed incId title desc t).events = [])
    ∧ (Model.reachable s.status proposed = true →
      (Model.createIncident w sid proposed incId title desc t).result = Except.ok ()
      ∧ Model.getServiceStatus
          (Model.createIncident w sid proposed incId title desc t).world sid
          = some proposed
      ∧ (Model.createIncident w sid proposed incId title desc t).events
          = [Model.EventType.incident_update, Model.EventType.service_status_update]) := by
  constructor
  · intro hun
    refine ⟨?_, ?_, ?_⟩ <;> simp [Model.createIncident, hfind, hun]
  · intro hok
    refine ⟨?_, ?_, ?_⟩
    · simp [Model.createIncident, hfind, hok]
    · simp only [Model.createIncident, hfind, hok, if_true]
      exact getServiceStatus_set w.services _ sid proposed (by rw [hfind]; rfl)
    · simp [Model.createIncident, hfind, hok]

/-- Operational service used by the creation witness. -/
def exService0 : Model.Service :=
  ⟨"s9", "Web", "frontend", Model.ServiceState.operational, true⟩

/-- World holding only the operational service, used by the creation
witness. -/
def exWorld0 : Model.World := ⟨[exService0], []⟩

/-- Witness for C2: from Operational, proposing Maintenance is rejected
with InvalidTransition and nothing changes, while proposing Degraded
succeeds and the service takes status Degraded. -/
theorem create_rejects_unreachable_transitions_witness :
    Model.reachable exService0.status Model.ServiceState.maintenance = false
    ∧ Model.reachable exService0.status Model.ServiceState.degraded = true
    ∧ (Model.createIncident exWorld0 "s9" Model.ServiceState.maintenance
        "i9" "mnt" "" 5).result
        = Except.error Model.LifecycleError.invalidTransition
    ∧ (Model.createIncident exWorld0 "s9" Model.ServiceState.maintenance
        "i9" "mnt" "" 5).world = exWorld0
    ∧ (Model.createIncident exWorld0 "s9" Model.ServiceState.maintenance
        "i9" "mnt" "" 5).events = []
    ∧ Model.getServiceStatus
        (Model.createIncident exWorld0 "s9" Model.ServiceState.degraded
          "i9" "slow" "" 5).world "s9"
        = some Model.ServiceState.degraded :=
  ⟨rfl, rfl,
    ((create_rejects_unreachable_transitions exWorld0 "s9"
        Model.ServiceState.maintenance "i9" "mnt" "" 5 exService0 rfl).1 rfl).1,
    ((create_rejects_unreachable_transitions exWorld0 "s9"
        Model.ServiceState.maintenance "i9" "mnt" "" 5 exService0 rfl).1 rfl).2.1,
    ((create_rejects_unreachable_transitions exWorld0 "s9"
        Model.ServiceState.maintenance "i9" "mnt" "" 5 exService0 rfl).1 rfl).2.2,
    ((create_rejects_unreachable_transitions exWorld0 "s9"
        Model.ServiceState.degraded "i9" "slow" "" 5 exService0 rfl).2 rfl).2.1⟩

/-- Claim C5: the from_state / to_state snapshot captured at creation
never changes afterwards — resolution, soft-deletion, an edit submission
(whose payload carries the service's live status as to_state), and a
status update all leave every incident's snapshot unchanged. -/
theorem snapshot_immutable_after_creation
    (w : Model.World) (incId iid : String) (t : Nat) (actor : String)
    (p : Model.EditPayload) (st : Model.IncidentStatus) :
    Model.incidentSnapshot (Model.resolveIncident w incId t) iid
        = Model.incidentSnapshot w iid
    ∧ Model.incidentSnapshot (Model.softDeleteIncident w incId actor t) iid
        = Model.incidentSnapshot w iid
    ∧ Model.incidentSnapshot (Model.editIncident w incId p) iid
        = Model.incidentSnapshot w iid
    ∧ ∀ w', Model.updateIncidentStatus w incId st = Except.ok w' →
        Model.incidentSnapshot w' iid = Model.incidentSnapshot w iid := by
  refine ⟨?_, ?_, ?_, ?_⟩
  · cases hf : w.incidents.find? (fun i => i.id == incId) with
    | none => simp [Model.resolveIncident, hf]
    | some inc =>
      simp only [Model.resolveIncident, hf, Model.incidentSnapshot]
      exact snapshot_map_preserved w.incidents _
        (fun i => by by_cases h : i.id == incId <;> simp [h])
        (fun i => by by_cases h : i.id == incId <;> simp [h])
        (fun i => by by_cases h : i.id == incId <;> simp [h]) iid
  · cases hf : w.incidents.find? (fun i => i.id == incId) with
    | none => simp [Model.softDeleteIncident, hf]
    | some inc =>
      by_cases hact : inc.isActive
      · simp only [Model.softDeleteIncident, hf, hact, if_true, Model.incidentSnapshot]
        exact snapshot_map_preserved w.incidents _
          (fun i => by by_cases h : i.id == incId <;> simp [h])
          (fun i => by by_cases h : i.id == incId <;> simp [h])
          (fun i => by by_cases h : i.id == incId <;> simp [h]) iid
      · simp only [Model.softDeleteIncident, hf, hact, Bool.false_eq_true, if_false,
          Model.incidentSnapshot]
        exact snapshot_map_preserved w.incidents _
          (fun i => by by_cases h : i.id == incId <;> simp [h])
          (fun i => by by_cases h : i.id == incId <;> simp [h])
          (fun i => by by_cases h : i.id == incId <;> simp [h]) iid
  · simp only [Model.editIncident, Model.incidentSnapshot]
    exact snapshot_map_preserved w.incidents _
      (fun i => by by_cases h : i.id == incId <;> simp [h])
      (fun i => by by_cases h : i.id == incId <;> simp [h])
      (fun i => by by_cases h : i.id == incId <;> simp [h]) iid
  · intro w' hw'
    cases hf : w.incidents.find? (fun i => i.id == incId) with
    | none => simp [Model.updateIncidentStatus, hf] at hw'
    | some inc =>
      by_cases h1 : inc.status = Model.IncidentStatus.resolved
      · simp [Model.updateIncidentStatus, hf, h1] at hw'
      · by_cases h2 : st.rank ≤ inc.status.rank
        · simp [Model.updateIncidentStatus, hf, h1, h2] at hw'
        · simp only [Model.updateIncidentStatus, hf, h1, h2, if_neg, if_false,
            Except.ok.injEq] at hw'
          subst hw'
          simp only [Model.incidentSnapshot]
          exact snapshot_map_preserved w.incidents _
            (fun i => by by_cases h : i.id == incId <;> simp [h])
            (fun i => by by_cases h : i.id == incId <;> simp [h])
            (fun i => by by_cases h : i.id == incId <;> simp [h]) iid

/-- Edit submission payload used by the C5 witness: IncidentModal edit
mode sends the service's current live status (MajorOutage here) as
to_state. -/
def exPayload : Model.EditPayload :=
  ⟨"updated title", "updated desc", Model.IncidentStatus.monitoring, "s1",
    Model.ServiceState.majorOutage⟩

/-- World after moving exIncident1 forward to Identified, used by the C5
witness. -/
def exWorldIdentified : Model.World :=
  ⟨[exService], [{ exIncident1 with status := Model.IncidentStatus.identified },
    exIncident2]⟩

/-- Witness for C5: editing incident i1 with a payload whose to_state is
the live MajorOutage status, and moving it forward to Identified, both
leave its (Operational, Degraded) snapshot unchanged. -/
theorem snapshot_immutable_after_creation_witness :
    Model.updateIncidentStatus exWorld "i1" Model.IncidentStatus.identified
        = Except.ok exWorldIdentified
    ∧ Model.incidentSnapshot exWorldIdentified "i1" = Model.incidentSnapshot exWorld "i1"
    ∧ Model.incidentSnapshot (Model.editIncident exWorld "i1" exPayload) "i1"
        = Model.incidentSnapshot exWorld "i1"
    ∧ Model.incidentSnapshot exWorld "i1"
        = some (Model.ServiceState.operational, Model.ServiceState.degraded) :=
  ⟨rfl,
    (snapshot_immutable_after_creation exWorld "i1" "i1" 10 "admin" exPayload
        Model.IncidentStatus.identified).2.2.2 exWorldIdentified rfl,
    (snapshot_immutable_after_creation exWorld "i1" "i1" 10 "admin" exPayload
        Model.IncidentStatus.identified).2.2.1,
    rfl⟩
